import Mathlib

set_option autoImplicit false

/-!
Shallow embedding of `computer_use_demo/gradio_app.py` (Gradio entrypoint of
the computer-use demo), covering the pieces the specification talks about:

* the content normalizer `output_callback` (lines 66-80),
* the transcript accumulator `chat` (lines 62-97),
* the persistence helpers `load_from_storage` (lines 36-45) and
  `save_to_storage` (lines 47-54).

The agent loop `sampling_loop` is imported from `computer_use_demo.loop`,
which is code of this repository that is not part of the sources being
verified; its behaviour is modelled from the specification where needed
(see `LoopRun`).
-/

/-- Python exceptions that the embedded code can raise.  `nameError` is the
`NameError` raised when an unbound global name is evaluated; `binasciiError`
is `binascii.Error` from `base64.b64decode`; `typeError` is the `TypeError`
from concatenating a non-`str` to a `str`; `loopFailure` stands for any
exception raised by the external agent loop (upstream API error, tool
execution exception); `osError` stands for filesystem errors. -/
inductive PyError where
  | nameError (missing : String)
  | binasciiError
  | typeError (msg : String)
  | loopFailure (reason : String)
  | osError (msg : String)
  deriving DecidableEq, Repr

/-- One displayable fragment, as yielded by `output_callback`: either a plain
string (error fragments are strings starting with "Error: ", line 77) or a
`gr.Image` carrying decoded binary data (line 79). -/
inductive Fragment where
  | text (s : String)
  | image (bytes : List Nat)
  deriving DecidableEq, Repr

/-- The `Sender` enum (lines 31-34).  `chat` binds `Sender.BOT` respectively
`Sender.TOOL` onto the two callback channels with `functools.partial`
(lines 88-89); the `sender` argument is never read by the callback body. -/
inductive Sender where
  | user
  | bot
  | tool
  deriving DecidableEq, Repr

/-- Runtime value passed as `content` to `output_callback`.  The first three
shapes are the ones the `isinstance` chain recognises before the broken
test (see `output_callback`); `betaToolUseBlock`/`toolUseBlock` are the
tool-use block classes, `toolResult` is `computer_use_demo.tools.ToolResult`
(fields `output`, `error`, `base64_image`, each `str | None`), and `unknown`
stands for any other Python value. -/
inductive Content where
  | str (s : String)
  | betaTextBlock (text : String)
  | textBlock (text : String)
  | betaToolUseBlock (name : String) (input : String)
  | toolUseBlock (name : String) (input : String)
  | toolResult (output : Option String) (error : Option String)
      (base64_image : Option String)
  | unknown (tag : String)
  deriving DecidableEq, Repr

/-- Embedding of `output_callback` (lines 66-80).  The `elif` chain tests, in
order: `str`; `(BetaTextBlock, TextBlock)`; `(BetaToolUseBlock,
ToolUseBlock)`; `ToolResult`.  The module imports `BetaTextBlock` and
`BetaToolUseBlock` from `anthropic.types.beta` and `TextBlock` from
`anthropic.types`, but never imports `ToolUseBlock`, so in Python the tuple
expression `(BetaToolUseBlock, ToolUseBlock)` raises
`NameError: name 'ToolUseBlock' is not defined` whenever control reaches the
third test — that is, for every content value that is not a `str`,
`BetaTextBlock` or `TextBlock` (including `BetaToolUseBlock` instances
themselves, since the tuple is evaluated before `isinstance` dispatches).
The `ToolResult` branch (lines 73-80: yield `output` if truthy, then
`"Error: " + error` if truthy, then a decoded image unless `hide_images`)
and the silent fall-through for unrecognised values are therefore
unreachable.  The first three branches yield unconditionally — there is no
emptiness check on the string or on `.text`. -/
def output_callback (sender : Sender) (hide_images : Bool) (content : Content) :
    Except PyError (List Fragment) :=
  match sender, hide_images, content with
  | _, _, .str s => .ok [.text s]
  | _, _, .betaTextBlock t => .ok [.text t]
  | _, _, .textBlock t => .ok [.text t]
  | _, _, _ => .error (.nameError "ToolUseBlock")

/-- Boolean success test for an `Except` result. -/
def exceptOk {ε α : Type} (r : Except ε α) : Bool :=
  match r with
  | .ok _ => true
  | .error _ => false

/-- One entry of the mutable `history` list: the dicts appended on line 63
(`{"role": "user", "content": message}`) and line 96
(`{"role": "assistant", "content": bot_response}`).  Both contents are
strings in the source. -/
structure ChatTurn where
  role : String
  content : String
  deriving DecidableEq, Repr

/-- The `TextBlock(type="text", text=m["content"])` built on line 64. -/
structure TextBlock where
  type : String
  text : String
  deriving DecidableEq, Repr

/-- One element of the `messages` list built on line 64:
`{"role": m["role"], "content": [TextBlock(type="text", text=m["content"])]}`. -/
structure LoopMessage where
  role : String
  content : List TextBlock
  deriving DecidableEq, Repr

/-- The projection of line 64, applied to every entry of `history`. -/
def projectHistory (history : List ChatTurn) : List LoopMessage :=
  history.map (fun m => ⟨m.role, [⟨"text", m.content⟩]⟩)

/-- Modelled from the spec: the observable behaviour of `sampling_loop`
(imported from `computer_use_demo.loop`, code of this repository that is not
among the verified sources).  Per spec section 6 the loop delivers a sequence
of content chunks by invoking the two callback channels and terminates either
normally or with a failure; the fragments the callbacks produce are what
`chat` consumes one by one as the `partial_response` values of its
`async for` (each callback call completes, including its snapshot emission,
before the next chunk is delivered).  `chunks` is the sequence the loop would
deliver, each tagged with the channel it arrives on; `failure = some reason`
means the loop raises after delivering its chunks. -/
structure LoopRun where
  chunks : List (Sender × Content)
  failure : Option String
  deriving DecidableEq, Repr

/-- Line 93, `bot_response += partial_response`: string concatenation when
the streamed fragment is a string; a `gr.Image` fragment would raise
`TypeError` exactly as `str.__iadd__` does in Python. -/
def appendResponse (buf : String) (f : Fragment) : Except PyError String :=
  match f with
  | .text s => .ok (buf ++ s)
  | .image _ => .error (.typeError "can only concatenate str to str")

/-- The state of `chat`'s streaming loop: the accumulated `bot_response`
(line 82/93), the snapshots yielded so far (line 94), and the exception that
aborted the stream, if any. -/
structure StreamState where
  buf : String
  snapshots : List String
  aborted : Option PyError
  deriving DecidableEq, Repr

/-- Append the fragments of one chunk to the stream state: for each fragment
in order, extend `bot_response` and yield the updated buffer (lines 93-94).
An append failure aborts with the exception, keeping what was already
emitted. -/
def feedFragments (st : StreamState) : List Fragment → StreamState
  | [] => st
  | f :: fs =>
    match appendResponse st.buf f with
    | .error e => ⟨st.buf, st.snapshots, some e⟩
    | .ok b => feedFragments ⟨b, st.snapshots ++ [b], none⟩ fs

/-- Drive the stream over the chunks the loop delivers: each chunk is
normalised by `output_callback` and its fragments are folded in by
`feedFragments`; a raised exception aborts the stream, leaving the remaining
chunks undelivered (the `async for` of lines 83-94 re-raises and stops
consuming). -/
def feedChunks (hide_images : Bool) (st : StreamState) :
    List (Sender × Content) → StreamState
  | [] => st
  | (sender, c) :: rest =>
    match output_callback sender hide_images c with
    | .error e => ⟨st.buf, st.snapshots, some e⟩
    | .ok fs =>
      let st2 := feedFragments st fs
      match st2.aborted with
      | some _ => st2
      | none => feedChunks hide_images st2 rest

/-- Everything observable about one run of `chat`: the `messages` list passed
to the agent loop (line 64), the snapshots yielded to the caller (line 94),
the final contents of the mutated `history` list, and the exception that
propagated out of `chat`, if any. -/
structure RunResult where
  projected : List LoopMessage
  snapshots : List String
  history : List ChatTurn
  raised : Option PyError
  deriving DecidableEq, Repr

/-- Embedding of `chat` (lines 62-97).  Line 63 appends the user turn to
`history` before the loop starts; line 64 projects the extended history;
lines 82-94 accumulate `bot_response` and yield a snapshot per streamed
fragment; line 96 appends the assistant turn — it runs only when the
`async for` finishes normally, since `chat` contains no `try`/`except`: an
exception from the loop or from normalisation propagates to the caller and
skips the commit, while the in-place appends done before the exception
remain visible in `history`. -/
def chat (message : String) (history : List ChatTurn) (hide_images : Bool)
    (run : LoopRun) : RunResult :=
  let h1 := history ++ [⟨"user", message⟩]
  let messages := projectHistory h1
  let st := feedChunks hide_images ⟨"", [], none⟩ run.chunks
  match st.aborted with
  | some e => ⟨messages, st.snapshots, h1, some e⟩
  | none =>
    match run.failure with
    | some reason => ⟨messages, st.snapshots, h1, some (.loopFailure reason)⟩
    | none => ⟨messages, st.snapshots, h1 ++ [⟨"assistant", st.buf⟩], none⟩

/-- State of one file under `CONFIG_DIR`: missing (`exists()` is false),
present with contents, or present but unreadable (`read_text()` raises). -/
inductive FileState where
  | absent
  | stored (data : String)
  | readFails
  deriving DecidableEq, Repr

/-- The filesystem as seen by the persistence helpers: the per-file state
under `CONFIG_DIR`, plus whether `mkdir`, `write_text` and `chmod` raise. -/
structure Storage where
  file : String → FileState
  mkdirFails : Bool
  writeFails : Bool
  chmodFails : Bool

/-- Python whitespace characters recognised by `str.strip()` (the ASCII
ones: space, tab, newline, carriage return, vertical tab, form feed). -/
def isPySpace (c : Char) : Bool :=
  c = ' ' || c = '\t' || c = '\n' || c = '\r' || c = '\x0b' || c = '\x0c'

/-- Python `str.strip()`: drop leading and trailing whitespace. -/
def pyStrip (s : String) : String :=
  ⟨((s.data.dropWhile isPySpace).reverse.dropWhile isPySpace).reverse⟩

/-- The body of the `try` block of `load_from_storage` (lines 38-42) together
with the fall-through `return None` (line 45): if the file exists, read it
(which may raise), strip the data, and return it when truthy; otherwise fall
through to `None`. -/
def loadAttempt (st : Storage) (filename : String) :
    Except PyError (Option String) :=
  match st.file filename with
  | .absent => .ok none
  | .readFails => .error (.osError "read_text failed")
  | .stored data =>
    if (pyStrip data).isEmpty then .ok none else .ok (some (pyStrip data))

/-- Embedding of `load_from_storage` (lines 36-45): the `except Exception`
clause catches every exception, prints a debug line, and control falls
through to `return None`.  The result is stated as an `Except` so that the
absence of propagation is a provable fact rather than a typing accident. -/
def load_from_storage (st : Storage) (filename : String) :
    Except PyError (Option String) :=
  match loadAttempt st filename with
  | .ok v => .ok v
  | .error _ => .ok none

/-- Write `data` into `filename`, leaving the other files unchanged. -/
def setFile (st : Storage) (filename : String) (data : String) : Storage :=
  ⟨fun n => if n = filename then .stored data else st.file n,
    st.mkdirFails, st.writeFails, st.chmodFails⟩

/-- The body of the `try` block of `save_to_storage` (lines 49-52):
`mkdir`, then `write_text`, then `chmod(0o600)`, each of which may raise;
the storage reflects whatever writes happened before a raise. -/
def saveAttempt (st : Storage) (filename : String) (data : String) :
    Option PyError × Storage :=
  if st.mkdirFails then (some (.osError "mkdir failed"), st)
  else if st.writeFails then (some (.osError "write_text failed"), st)
  else
    let st2 := setFile st filename data
    if st.chmodFails then (some (.osError "chmod failed"), st2)
    else (none, st2)

/-- Embedding of `save_to_storage` (lines 47-54): the `except Exception`
clause catches every exception and logs it, so the caller always gets a
normal return whatever the filesystem did. -/
def save_to_storage (st : Storage) (filename : String) (data : String) :
    Except PyError Storage :=
  .ok (saveAttempt st filename data).2

/-- The `value=` expression of the API-key textbox (line 111):
`load_from_storage("api_key") or os.getenv("ANTHROPIC_API_KEY", "")` —
a falsy loaded value (None; the empty string cannot be returned, since the
stripped data is checked for truthiness) degrades to the environment
variable, itself defaulting to the empty string. -/
def apiKeyValue (st : Storage) (env : String → Option String) : String :=
  match load_from_storage st "api_key" with
  | .ok (some v) => v
  | _ => (env "ANTHROPIC_API_KEY").getD ""

/-- The fragments produced by normalising a chunk sequence, in delivery
order; a chunk whose normalisation raises contributes no fragment (the
`NameError` fires before any `yield` of its branch can run). -/
def runFragments (hide_images : Bool) : List (Sender × Content) → List Fragment
  | [] => []
  | (sender, c) :: rest =>
    (match output_callback sender hide_images c with
      | .ok fs => fs
      | .error _ => []) ++ runFragments hide_images rest

/-- Concatenation of a list of strings, in order. -/
def joinTexts : List String → String
  | [] => ""
  | s :: ss => s ++ joinTexts ss

/-- The successive buffer values obtained by appending each string in turn
to `buf`: element `k` is the buffer contents right after the `k`-th append,
i.e. the snapshot the accumulator emits for the `k`-th fragment. -/
def snapshotTrace (buf : String) : List String → List String
  | [] => []
  | s :: ss => (buf ++ s) :: snapshotTrace (buf ++ s) ss

/-- The content shapes the `isinstance` chain recognises before the unbound
name `ToolUseBlock` is evaluated: plain strings and the two text-block
classes. -/
def isTextLike : Content → Bool
  | .str _ => true
  | .betaTextBlock _ => true
  | .textBlock _ => true
  | _ => false

/-- The projection of history into agent-loop messages as the specification
words it: each turn, in order, maps to its role together with its content
wrapped as a single text block. -/
def specProjection : List ChatTurn → List LoopMessage
  | [] => []
  | t :: ts => ⟨t.role, [⟨"text", t.content⟩]⟩ :: specProjection ts

/-- Every successful normalisation yields exactly one text fragment: the
three reachable branches of `output_callback` each `yield` a single string. -/
theorem callback_ok_shape (sender : Sender) (hide_images : Bool) (c : Content)
    (fs : List Fragment) (h : output_callback sender hide_images c = .ok fs) :
    ∃ s, fs = [.text s] := by
  cases c with
  | str s => exact ⟨s, by simpa [output_callback] using h.symm⟩
  | betaTextBlock t => exact ⟨t, by simpa [output_callback] using h.symm⟩
  | textBlock t => exact ⟨t, by simpa [output_callback] using h.symm⟩
  | betaToolUseBlock n i => simp [output_callback] at h
  | toolUseBlock n i => simp [output_callback] at h
  | toolResult o e i => simp [output_callback] at h
  | unknown t => simp [output_callback] at h

/-- When every chunk of the run normalises successfully, the stream never
aborts: the final buffer is the concatenation of the fragment texts, and the
snapshots are exactly the successive buffer values, one per fragment. -/
theorem feedChunks_all_ok (hide_images : Bool)
    (chunks : List (Sender × Content)) :
    ∀ (buf : String) (snaps : List String),
      (∀ sc ∈ chunks, exceptOk (output_callback sc.1 hide_images sc.2) = true) →
      ∃ ss : List String,
        runFragments hide_images chunks = ss.map Fragment.text ∧
        feedChunks hide_images ⟨buf, snaps, none⟩ chunks
          = ⟨buf ++ joinTexts ss, snaps ++ snapshotTrace buf ss, none⟩ := by
  induction chunks with
  | nil =>
    intro buf snaps _
    exact ⟨[], by simp [runFragments], by simp [feedChunks, joinTexts, snapshotTrace]⟩
  | cons sc rest ih =>
    intro buf snaps h
    obtain ⟨sender, c⟩ := sc
    have hok := h (sender, c) (List.mem_cons_self _ _)
    cases hcb : output_callback sender hide_images c with
    | error e => rw [hcb] at hok; simp [exceptOk] at hok
    | ok fs =>
      obtain ⟨s, rfl⟩ := callback_ok_shape _ _ _ _ hcb
      obtain ⟨ss, hfr, hfc⟩ := ih (buf ++ s) (snaps ++ [buf ++ s])
        (fun sc2 hsc => h sc2 (List.mem_cons_of_mem _ hsc))
      refine ⟨s :: ss, ?_, ?_⟩
      · simp [runFragments, hcb, hfr]
      · simp only [feedChunks, hcb, feedFragments, appendResponse]
        simpa [joinTexts, snapshotTrace, String.append_assoc] using hfc

/-- The projection the source computes coincides with the one the
specification describes. -/
theorem projectHistory_eq_spec (l : List ChatTurn) :
    projectHistory l = specProjection l := by
  induction l with
  | nil => rfl
  | cons t ts ih => simp [projectHistory, specProjection, ← ih]

/-- A snapshot trace has one entry per appended string. -/
theorem snapshotTrace_length (buf : String) (ss : List String) :
    (snapshotTrace buf ss).length = ss.length := by
  induction ss generalizing buf with
  | nil => rfl
  | cons s ss ih => simp [snapshotTrace, ih]

/-- If the stream finished without aborting, every chunk normalised
successfully. -/
theorem feedChunks_none_all_ok (hide_images : Bool)
    (chunks : List (Sender × Content)) :
    ∀ (buf : String) (snaps : List String),
      (feedChunks hide_images ⟨buf, snaps, none⟩ chunks).aborted = none →
      ∀ sc ∈ chunks, exceptOk (output_callback sc.1 hide_images sc.2) = true := by
  induction chunks with
  | nil => intro _ _ _ sc hsc; simp at hsc
  | cons sc rest ih =>
    intro buf snaps h sc2 hsc
    obtain ⟨sender, c⟩ := sc
    cases hcb : output_callback sender hide_images c with
    | error e => simp [feedChunks, hcb] at h
    | ok fs =>
      obtain ⟨s, rfl⟩ := callback_ok_shape _ _ _ _ hcb
      rcases List.mem_cons.mp hsc with rfl | hmem
      · simp [exceptOk, hcb]
      · exact ih (buf ++ s) (snaps ++ [buf ++ s])
          (by simpa [feedChunks, hcb, feedFragments, appendResponse] using h)
          sc2 hmem

/-- Streaming composes over concatenation as long as the first part never
aborts: the chunks of `l2` are processed from the state `l1` left behind. -/
theorem feedChunks_append (hide_images : Bool)
    (l1 l2 : List (Sender × Content)) :
    ∀ (buf : String) (snaps : List String),
      (feedChunks hide_images ⟨buf, snaps, none⟩ l1).aborted = none →
      feedChunks hide_images ⟨buf, snaps, none⟩ (l1 ++ l2)
        = feedChunks hide_images
            (feedChunks hide_images ⟨buf, snaps, none⟩ l1) l2 := by
  induction l1 with
  | nil => intro buf snaps _; rfl
  | cons sc rest ih =>
    intro buf snaps h
    obtain ⟨sender, c⟩ := sc
    cases hcb : output_callback sender hide_images c with
    | error e => simp [feedChunks, hcb] at h
    | ok fs =>
      obtain ⟨s, rfl⟩ := callback_ok_shape _ _ _ _ hcb
      have h2 : (feedChunks hide_images
          ⟨buf ++ s, snaps ++ [buf ++ s], none⟩ rest).aborted = none := by
        simpa [feedChunks, hcb, feedFragments, appendResponse] using h
      simp only [List.cons_append, feedChunks, hcb, feedFragments,
        appendResponse]
      exact ih (buf ++ s) (snaps ++ [buf ++ s]) h2

/-- Evaluation of `chat` when normalisation of some chunk raised: the
exception propagates, the history keeps only the user turn appended on
line 63, and the snapshots are the ones emitted before the raise. -/
theorem chat_eq_of_abort (msg : String) (h : List ChatTurn)
    (hide_images : Bool) (run : LoopRun) (buf : String)
    (snaps : List String) (e : PyError)
    (hst : feedChunks hide_images ⟨"", [], none⟩ run.chunks
      = ⟨buf, snaps, some e⟩) :
    chat msg h hide_images run
      = ⟨projectHistory (h ++ [⟨"user", msg⟩]), snaps,
          h ++ [⟨"user", msg⟩], some e⟩ := by
  simp [chat, hst]

/-- Evaluation of `chat` when the agent loop itself fails after its chunks:
same shape as an abort, with the loop's exception. -/
theorem chat_eq_of_loop_failure (msg : String) (h : List ChatTurn)
    (hide_images : Bool) (run : LoopRun) (buf : String)
    (snaps : List String) (r : String)
    (hst : feedChunks hide_images ⟨"", [], none⟩ run.chunks
      = ⟨buf, snaps, none⟩)
    (hf : run.failure = some r) :
    chat msg h hide_images run
      = ⟨projectHistory (h ++ [⟨"user", msg⟩]), snaps,
          h ++ [⟨"user", msg⟩], some (.loopFailure r)⟩ := by
  simp [chat, hst, hf]

/-- Evaluation of `chat` on a normal completion: line 96 appends the
assistant turn carrying the final buffer. -/
theorem chat_eq_of_success (msg : String) (h : List ChatTurn)
    (hide_images : Bool) (run : LoopRun) (buf : String)
    (snaps : List String)
    (hst : feedChunks hide_images ⟨"", [], none⟩ run.chunks
      = ⟨buf, snaps, none⟩)
    (hf : run.failure = none) :
    chat msg h hide_images run
      = ⟨projectHistory (h ++ [⟨"user", msg⟩]), snaps,
          h ++ [⟨"user", msg⟩] ++ [⟨"assistant", buf⟩], none⟩ := by
  simp [chat, hst, hf]

/-- Whatever the outcome, the snapshots `chat` yielded are exactly the ones
accumulated by the streaming loop. -/
theorem chat_snapshots_eq (msg : String) (h : List ChatTurn)
    (hide_images : Bool) (run : LoopRun) :
    (chat msg h hide_images run).snapshots
      = (feedChunks hide_images ⟨"", [], none⟩ run.chunks).snapshots := by
  rcases hst : feedChunks hide_images ⟨"", [], none⟩ run.chunks
    with ⟨buf, snaps, ab⟩
  cases ab with
  | some e => rw [chat_eq_of_abort msg h hide_images run buf snaps e hst]
  | none =>
    cases hf : run.failure with
    | some r =>
      rw [chat_eq_of_loop_failure msg h hide_images run buf snaps r hst hf]
    | none => rw [chat_eq_of_success msg h hide_images run buf snaps hst hf]

/-- C3: the claim states that a `ToolResult` chunk normalises to zero to
three fragments (output text, then error text, then image unless hidden).
The code cannot do this: because `ToolUseBlock` is never imported, the
`isinstance` test on line 71 raises `NameError` for every `ToolResult`
before the branch of lines 73-80 — whose structure matches the claim — can
run.  This theorem evaluates the code at the failing inputs: every
`ToolResult`, under every visibility policy, raises. -/
theorem toolResult_raises_nameError (sender : Sender) (hide_images : Bool)
    (output : Option String) (error : Option String)
    (base64_image : Option String) :
    output_callback sender hide_images (.toolResult output error base64_image)
      = .error (.nameError "ToolUseBlock") := rfl

/-- C4 counterexample: the claim says the normaliser "does not raise for any
other chunk shape" (beyond unrecognised variants), yet a `ToolResult` — a
recognised kind — raises the `NameError` from the unbound `ToolUseBlock`;
no `UnsupportedChunkError` distinct from this exists anywhere in the code. -/
theorem recognized_kind_raises :
    output_callback .tool false (.toolResult (some "ok") none none)
      = .error (.nameError "ToolUseBlock") := rfl

/-- C4 amended: every chunk that is not a plain string or a text block —
the recognised tool-use and tool-result kinds just as much as unrecognised
variants — makes the normaliser raise `NameError: name 'ToolUseBlock' is
not defined`, which surfaces to the accumulator; no chunk is silently
dropped with zero fragments, but the failure is this `NameError`, not a
dedicated `UnsupportedChunkError`, and it hits recognised kinds too. -/
theorem normalizer_dispatch_amended (sender : Sender) (hide_images : Bool)
    (c : Content) :
    (isTextLike c = true →
      ∃ s, output_callback sender hide_images c = .ok [.text s]) ∧
    (isTextLike c = false →
      output_callback sender hide_images c
        = .error (.nameError "ToolUseBlock")) := by
  cases c <;> simp [isTextLike, output_callback]

/-- Witness for the amended C4: a text-like chunk normalises, and an
unrecognised chunk raises the `NameError`. -/
theorem normalizer_dispatch_amended_witness :
    (∃ s, output_callback .bot false (.str "hi") = .ok [.text s]) ∧
    output_callback .bot false (.unknown "BetaMessage")
      = .error (.nameError "ToolUseBlock") :=
  ⟨(normalizer_dispatch_amended .bot false (.str "hi")).1 (by decide),
    (normalizer_dispatch_amended .bot false (.unknown "BetaMessage")).2
      (by decide)⟩

/-- C5 counterexample: the claim says an empty text body yields zero
fragments and zero emissions, but the `str` branch on line 68 yields
unconditionally — an empty string produces one (empty) text fragment, and a
run delivering it emits one snapshot. -/
theorem empty_text_yields_fragment :
    output_callback .bot false (.str "") = .ok [.text ""] ∧
    (chat "m" [] false ⟨[(.bot, .str "")], none⟩).snapshots = [""] :=
  ⟨rfl, by decide⟩

/-- C5 amended: every text chunk — plain string, `BetaTextBlock` or
`TextBlock` — normalises to exactly one text fragment equal to its body,
including when the body is the empty string (one empty fragment and hence
one emission, not zero). -/
theorem text_chunk_single_fragment (sender : Sender) (hide_images : Bool)
    (s : String) :
    output_callback sender hide_images (.str s) = .ok [.text s] ∧
    output_callback sender hide_images (.betaTextBlock s) = .ok [.text s] ∧
    output_callback sender hide_images (.textBlock s) = .ok [.text s] :=
  ⟨rfl, rfl, rfl⟩

/-- C1 counterexample: the claim says a failing agent loop still commits the
accumulated fragments as a partial assistant turn with an error-marked
fragment appended.  In this run one fragment was accumulated (and emitted as
a snapshot) before the loop failed, yet the final history holds only the
user turn — no partial assistant turn, no error fragment — and the
exception propagates out of `chat` instead. -/
theorem chat_failure_discards_buffer :
    (chat "hi" [] false
        ⟨[(.bot, .str "Working on it...")], some "APIError"⟩).snapshots
      = ["Working on it..."] ∧
    (chat "hi" [] false
        ⟨[(.bot, .str "Working on it...")], some "APIError"⟩).history
      = [⟨"user", "hi"⟩] ∧
    (chat "hi" [] false
        ⟨[(.bot, .str "Working on it...")], some "APIError"⟩).raised
      = some (.loopFailure "APIError") :=
  ⟨by decide, by decide, by decide⟩

/-- C1 amended: when the agent loop completes normally, the accumulated
stream buffer is committed to history as one assistant turn; when the loop
(or normalisation) fails mid-stream, nothing is committed — the history
keeps only the user turn appended at the start, the accumulated fragments
reach history not at all, and the failure propagates to the caller instead
of being appended as an error-marked fragment. -/
theorem chat_commit_amended (msg : String) (h : List ChatTurn)
    (hide_images : Bool) (run : LoopRun) :
    ((chat msg h hide_images run).raised = none →
      (chat msg h hide_images run).history
        = h ++ [⟨"user", msg⟩]
            ++ [⟨"assistant",
                  (feedChunks hide_images ⟨"", [], none⟩ run.chunks).buf⟩]) ∧
    (∀ e, (chat msg h hide_images run).raised = some e →
      (chat msg h hide_images run).history = h ++ [⟨"user", msg⟩]) := by
  rcases hst : feedChunks hide_images ⟨"", [], none⟩ run.chunks
    with ⟨buf, snaps, ab⟩
  cases ab with
  | some e =>
    rw [chat_eq_of_abort msg h hide_images run buf snaps e hst]
    exact ⟨fun hc => Option.noConfusion hc, fun _ _ => rfl⟩
  | none =>
    cases hf : run.failure with
    | some r =>
      rw [chat_eq_of_loop_failure msg h hide_images run buf snaps r hst hf]
      exact ⟨fun hc => Option.noConfusion hc, fun _ _ => rfl⟩
    | none =>
      rw [chat_eq_of_success msg h hide_images run buf snaps hst hf]
      exact ⟨fun _ => rfl, fun e hc => Option.noConfusion hc⟩

/-- Witness for the amended C1: both branches at concrete runs — a normal
completion commits the buffer, a failing run leaves only the user turn. -/
theorem chat_commit_amended_witness :
    ((chat "m" [] false ⟨[(Sender.bot, Content.str "A")], none⟩).history
      = [] ++ [⟨"user", "m"⟩]
          ++ [⟨"assistant",
                (feedChunks false ⟨"", [], none⟩
                  [(Sender.bot, Content.str "A")]).buf⟩]) ∧
    ((chat "m" [] false ⟨[], some "boom"⟩).history
      = [] ++ [⟨"user", "m"⟩]) :=
  ⟨(chat_commit_amended "m" [] false
      ⟨[(Sender.bot, Content.str "A")], none⟩).1 (by decide),
    (chat_commit_amended "m" [] false ⟨[], some "boom"⟩).2
      (.loopFailure "boom") (by decide)⟩

/-- C2 counterexample: the claim says history grows by exactly 2 after every
run, success or failure.  On this failing run the history grows by exactly
1 — the user turn — and no assistant turn is appended. -/
theorem chat_failure_grows_history_by_one :
    (chat "hello" [] false ⟨[(.bot, .str "A")], some "boom"⟩).history.length
      = 1 ∧
    (chat "hello" [] false ⟨[(.bot, .str "A")], some "boom"⟩).raised
      = some (.loopFailure "boom") :=
  ⟨by decide, by decide⟩

/-- C2 amended: for every run that completes successfully, history grows by
exactly 2 — one user turn followed by one assistant turn — and the assistant
turn's content is the concatenation, in emission order, of all fragments
emitted during the run; for a run that fails, history grows by exactly 1
(the user turn only). -/
theorem chat_history_growth_amended (msg : String) (h : List ChatTurn)
    (hide_images : Bool) (run : LoopRun) :
    ((chat msg h hide_images run).raised = none →
      ∃ ss : List String,
        runFragments hide_images run.chunks = ss.map Fragment.text ∧
        (chat msg h hide_images run).history
          = h ++ [⟨"user", msg⟩] ++ [⟨"assistant", joinTexts ss⟩] ∧
        (chat msg h hide_images run).history.length = h.length + 2) ∧
    ((chat msg h hide_images run).raised ≠ none →
      (chat msg h hide_images run).history = h ++ [⟨"user", msg⟩] ∧
      (chat msg h hide_images run).history.length = h.length + 1) := by
  rcases hst : feedChunks hide_images ⟨"", [], none⟩ run.chunks
    with ⟨buf, snaps, ab⟩
  cases ab with
  | some e =>
    rw [chat_eq_of_abort msg h hide_images run buf snaps e hst]
    exact ⟨fun hc => Option.noConfusion hc, fun _ => ⟨rfl, by simp⟩⟩
  | none =>
    cases hf : run.failure with
    | some r =>
      rw [chat_eq_of_loop_failure msg h hide_images run buf snaps r hst hf]
      exact ⟨fun hc => Option.noConfusion hc, fun _ => ⟨rfl, by simp⟩⟩
    | none =>
      rw [chat_eq_of_success msg h hide_images run buf snaps hst hf]
      refine ⟨fun _ => ?_, fun hne => absurd rfl hne⟩
      have hall := feedChunks_none_all_ok hide_images run.chunks "" []
        (by rw [hst])
      obtain ⟨ss, hfr, hfc⟩ := feedChunks_all_ok hide_images run.chunks "" []
        hall
      rw [hst] at hfc
      have hbuf : buf = joinTexts ss := by
        have h2 := congrArg StreamState.buf hfc
        simpa [String.empty_append] using h2
      exact ⟨ss, hfr, by rw [hbuf], by simp⟩

/-- Witness for the amended C2: a successful two-fragment run grows history
by 2 with the concatenated content, a failing run grows it by 1. -/
theorem chat_history_growth_amended_witness :
    (∃ ss : List String,
      runFragments false
          [(Sender.bot, Content.str "A"), (Sender.bot, Content.str "B")]
        = ss.map Fragment.text ∧
      (chat "q" []
          false ⟨[(Sender.bot, Content.str "A"),
                  (Sender.bot, Content.str "B")], none⟩).history
        = [] ++ [⟨"user", "q"⟩] ++ [⟨"assistant", joinTexts ss⟩] ∧
      (chat "q" []
          false ⟨[(Sender.bot, Content.str "A"),
                  (Sender.bot, Content.str "B")], none⟩).history.length
        = List.length ([] : List ChatTurn) + 2) ∧
    ((chat "q" [] false ⟨[], some "down"⟩).history
        = [] ++ [⟨"user", "q"⟩] ∧
      (chat "q" [] false ⟨[], some "down"⟩).history.length
        = List.length ([] : List ChatTurn) + 1) :=
  ⟨(chat_history_growth_amended "q" [] false
      ⟨[(Sender.bot, Content.str "A"), (Sender.bot, Content.str "B")],
        none⟩).1 (by decide),
    (chat_history_growth_amended "q" [] false ⟨[], some "down"⟩).2
      (by decide)⟩

/-- C6: for a run in which every delivered chunk normalises successfully,
the number of snapshots emitted equals the number of fragments produced by
normalising all chunks — one emission per fragment, never batched and never
dropped — and the snapshot sequence is exactly the trace of buffer contents
after each append (`snapshotTrace "" ss`, whose `k`-th entry is the buffer
right after the `k`-th fragment). -/
theorem chat_one_snapshot_per_fragment (msg : String) (h : List ChatTurn)
    (hide_images : Bool) (run : LoopRun)
    (hok : ∀ sc ∈ run.chunks,
      exceptOk (output_callback sc.1 hide_images sc.2) = true) :
    ∃ ss : List String,
      runFragments hide_images run.chunks = ss.map Fragment.text ∧
      (chat msg h hide_images run).snapshots = snapshotTrace "" ss ∧
      (chat msg h hide_images run).snapshots.length
        = (runFragments hide_images run.chunks).length := by
  obtain ⟨ss, hfr, hfc⟩ := feedChunks_all_ok hide_images run.chunks "" [] hok
  refine ⟨ss, hfr, ?_, ?_⟩
  · rw [chat_snapshots_eq msg h hide_images run, hfc]
    simp
  · rw [chat_snapshots_eq msg h hide_images run, hfc, hfr]
    simp [snapshotTrace_length]

/-- Witness for C6: a run with two text chunks emits exactly two snapshots,
matching the two fragments. -/
theorem chat_one_snapshot_per_fragment_witness :
    ∃ ss : List String,
      runFragments false
          [(Sender.bot, Content.str "A"), (Sender.tool, Content.str "B")]
        = ss.map Fragment.text ∧
      (chat "w" []
          false ⟨[(Sender.bot, Content.str "A"),
                  (Sender.tool, Content.str "B")], none⟩).snapshots
        = snapshotTrace "" ss ∧
      (chat "w" []
          false ⟨[(Sender.bot, Content.str "A"),
                  (Sender.tool, Content.str "B")], none⟩).snapshots.length
        = (runFragments false
            [(Sender.bot, Content.str "A"),
              (Sender.tool, Content.str "B")]).length :=
  chat_one_snapshot_per_fragment "w" [] false
    ⟨[(Sender.bot, Content.str "A"), (Sender.tool, Content.str "B")], none⟩
    (by decide)

/-- C7 counterexample: a tool-result chunk with an undecodable image payload
does not fail with a `DecodeError` — it fails with the `NameError` from the
unbound `ToolUseBlock`, raised before any decoding is attempted — and the
accumulator does not recover: the following chunk is never processed (zero
snapshots), the exception propagates, and no turn beyond the user's is
recorded. -/
theorem malformed_image_not_decode_error :
    output_callback .tool false
        (.toolResult none none (some "%%%not-base64%%%"))
      = .error (.nameError "ToolUseBlock") ∧
    (chat "m" [] false
        ⟨[(.tool, .toolResult none none (some "%%%not-base64%%%")),
          (.bot, .str "after")], none⟩).raised
      = some (.nameError "ToolUseBlock") ∧
    (chat "m" [] false
        ⟨[(.tool, .toolResult none none (some "%%%not-base64%%%")),
          (.bot, .str "after")], none⟩).snapshots = [] ∧
    (chat "m" [] false
        ⟨[(.tool, .toolResult none none (some "%%%not-base64%%%")),
          (.bot, .str "after")], none⟩).history = [⟨"user", "m"⟩] :=
  ⟨rfl, by decide, by decide, by decide⟩

/-- C7 amended: the claim's two parts both fail on the code, each for a
traceable reason.  (1) "normalization fails with a DecodeError": every
tool-result chunk — whether or not its image payload is malformed — fails
with the `NameError` from the unbound `ToolUseBlock` on line 71, raised
before `base64.b64decode` (line 79) can run, so no `DecodeError` is
reachable.  (2) "the accumulator recovers ... and continues to process the
remaining stream": neither `output_callback` nor `chat` contains an
exception handler, so whenever some chunk of the run fails to normalise the
exception propagates out of `chat` and history receives only the user turn;
moreover, for a run whose chunks are a well-formed prefix followed by a
tool-result, the run raises exactly the `NameError`, the snapshots are
exactly those of the prefix — no error fragment is recorded in the buffer
and the chunks after the failure contribute nothing — and no assistant turn
is committed. -/
theorem normalizer_error_aborts_run (msg : String) (h : List ChatTurn)
    (hide_images : Bool) (run : LoopRun) :
    (∀ (sender : Sender) (output error base64_image : Option String),
      output_callback sender hide_images
          (.toolResult output error base64_image)
        = .error (.nameError "ToolUseBlock")) ∧
    ((∃ sc ∈ run.chunks,
        exceptOk (output_callback sc.1 hide_images sc.2) = false) →
      (chat msg h hide_images run).raised ≠ none ∧
      (chat msg h hide_images run).history = h ++ [⟨"user", msg⟩]) ∧
    (∀ (pre post : List (Sender × Content)) (sender : Sender)
        (output error base64_image : Option String),
      run.chunks
          = pre ++ (sender, .toolResult output error base64_image) :: post →
      (∀ sc ∈ pre, exceptOk (output_callback sc.1 hide_images sc.2) = true) →
      ∃ ss : List String,
        runFragments hide_images pre = ss.map Fragment.text ∧
        (chat msg h hide_images run).raised
          = some (.nameError "ToolUseBlock") ∧
        (chat msg h hide_images run).snapshots = snapshotTrace "" ss ∧
        (chat msg h hide_images run).history = h ++ [⟨"user", msg⟩]) := by
  refine ⟨fun _ _ _ _ => rfl, ?_, ?_⟩
  · rintro ⟨sc, hmem, hbad⟩
    rcases hst : feedChunks hide_images ⟨"", [], none⟩ run.chunks
      with ⟨buf, snaps, ab⟩
    cases ab with
    | some e =>
      rw [chat_eq_of_abort msg h hide_images run buf snaps e hst]
      exact ⟨fun hc => Option.noConfusion hc, rfl⟩
    | none =>
      have hcontra := feedChunks_none_all_ok hide_images run.chunks "" []
        (by rw [hst]) sc hmem
      rw [hbad] at hcontra
      exact Bool.noConfusion hcontra
  · rintro pre post sender o e i hchunks hok
    obtain ⟨ss, hfr, hfc⟩ := feedChunks_all_ok hide_images pre "" [] hok
    have habort :
        feedChunks hide_images ⟨"", [], none⟩ run.chunks
          = ⟨"" ++ joinTexts ss, [] ++ snapshotTrace "" ss,
              some (.nameError "ToolUseBlock")⟩ := by
      rw [hchunks,
        feedChunks_append hide_images pre
          ((sender, .toolResult o e i) :: post) "" [] (by rw [hfc]),
        hfc]
      rfl
    rw [chat_eq_of_abort msg h hide_images run ("" ++ joinTexts ss)
      ([] ++ snapshotTrace "" ss) (.nameError "ToolUseBlock") habort]
    exact ⟨ss, hfr, rfl, by simp, rfl⟩

/-- Witness for the amended C7: a run with a lone tool-result chunk aborts
without committing anything beyond the user turn, and a run with a text
chunk, then a malformed-image tool-result, then another text chunk raises
the `NameError`, keeps only the prefix snapshot, and never reaches the
trailing chunk. -/
theorem normalizer_error_aborts_run_witness :
    ((chat "v" [] false
        ⟨[(Sender.tool, Content.toolResult (some "out") none none)],
          none⟩).raised ≠ none ∧
      (chat "v" [] false
          ⟨[(Sender.tool, Content.toolResult (some "out") none none)],
            none⟩).history = [] ++ [⟨"user", "v"⟩]) ∧
    (∃ ss : List String,
      runFragments false [(Sender.bot, Content.str "Working")]
        = ss.map Fragment.text ∧
      (chat "u" [] false
          ⟨[(Sender.bot, Content.str "Working"),
            (Sender.tool, Content.toolResult none none (some "img")),
            (Sender.bot, Content.str "after")], none⟩).raised
        = some (.nameError "ToolUseBlock") ∧
      (chat "u" [] false
          ⟨[(Sender.bot, Content.str "Working"),
            (Sender.tool, Content.toolResult none none (some "img")),
            (Sender.bot, Content.str "after")], none⟩).snapshots
        = snapshotTrace "" ss ∧
      (chat "u" [] false
          ⟨[(Sender.bot, Content.str "Working"),
            (Sender.tool, Content.toolResult none none (some "img")),
            (Sender.bot, Content.str "after")], none⟩).history
        = [] ++ [⟨"user", "u"⟩]) :=
  ⟨(normalizer_error_aborts_run "v" [] false
      ⟨[(Sender.tool, Content.toolResult (some "out") none none)],
        none⟩).2.1
    ⟨(Sender.tool, Content.toolResult (some "out") none none),
      by decide, by decide⟩,
    (normalizer_error_aborts_run "u" [] false
        ⟨[(Sender.bot, Content.str "Working"),
          (Sender.tool, Content.toolResult none none (some "img")),
          (Sender.bot, Content.str "after")], none⟩).2.2
      [(Sender.bot, Content.str "Working")]
      [(Sender.bot, Content.str "after")]
      Sender.tool none none (some "img") rfl (by decide)⟩

/-- C8: `chat` appends the new user turn to history before the agent loop
is invoked (line 63) — every possible outcome of the run still carries it as
entry `h.length` of the final history — and the history projected to the
loop (line 64) covers the extended history including that new turn, mapping
each turn in order to its role plus its content wrapped as a single text
block, as `specProjection` words it. -/
theorem chat_appends_user_and_projects (msg : String) (h : List ChatTurn)
    (hide_images : Bool) (run : LoopRun) :
    (chat msg h hide_images run).projected
      = specProjection (h ++ [⟨"user", msg⟩]) ∧
    (chat msg h hide_images run).history.take (h.length + 1)
      = h ++ [⟨"user", msg⟩] := by
  have hlen : (h ++ [(⟨"user", msg⟩ : ChatTurn)]).length = h.length + 1 := by
    simp
  rcases hst : feedChunks hide_images ⟨"", [], none⟩ run.chunks
    with ⟨buf, snaps, ab⟩
  cases ab with
  | some e =>
    rw [chat_eq_of_abort msg h hide_images run buf snaps e hst]
    exact ⟨projectHistory_eq_spec _, by rw [← hlen, List.take_length]⟩
  | none =>
    cases hf : run.failure with
    | some r =>
      rw [chat_eq_of_loop_failure msg h hide_images run buf snaps r hst hf]
      exact ⟨projectHistory_eq_spec _, by rw [← hlen, List.take_length]⟩
    | none =>
      rw [chat_eq_of_success msg h hide_images run buf snaps hst hf]
      exact ⟨projectHistory_eq_spec _, by rw [← hlen, List.take_left]⟩

/-- C9: the persistence helpers never propagate an exception to the caller:
`load_from_storage` always returns normally, an absent file and a failed
read both yield `None` (so the caller degrades to its environment-variable
or empty default), `save_to_storage` always returns normally, and a failed
write leaves everything unchanged. -/
theorem persistence_never_propagates (f : String → FileState)
    (mkF wrF chF : Bool) (name data : String) :
    exceptOk (load_from_storage ⟨f, mkF, wrF, chF⟩ name) = true ∧
    exceptOk (save_to_storage ⟨f, mkF, wrF, chF⟩ name data) = true ∧
    load_from_storage ⟨fun _ => .absent, mkF, wrF, chF⟩ name = .ok none ∧
    load_from_storage ⟨fun _ => .readFails, mkF, wrF, chF⟩ name = .ok none ∧
    save_to_storage ⟨f, false, true, chF⟩ name data
      = .ok ⟨f, false, true, chF⟩ := by
  refine ⟨?_, rfl, rfl, rfl, rfl⟩
  cases hl : loadAttempt ⟨f, mkF, wrF, chF⟩ name with
  | ok v => simp [load_from_storage, hl, exceptOk]
  | error e => simp [load_from_storage, hl, exceptOk]

/-- C10: a stored configuration file whose contents are only whitespace (or
empty) loads as `None` — the stripped value is falsy, so `load_from_storage`
falls through to its default exactly as if the file did not exist. -/
theorem whitespace_only_value_absent (others : String → FileState)
    (mkF wrF chF : Bool) (name s : String)
    (hws : s.data.all isPySpace = true) :
    load_from_storage
        ⟨fun n => if n = name then .stored s else others n, mkF, wrF, chF⟩
        name
      = .ok none ∧
    load_from_storage
        ⟨fun n => if n = name then .stored s else others n, mkF, wrF, chF⟩
        name
      = load_from_storage
          ⟨fun n => if n = name then .absent else others n, mkF, wrF, chF⟩
          name := by
  have hstrip : pyStrip s = "" := by
    unfold pyStrip
    have h1 : s.data.dropWhile isPySpace = [] :=
      List.dropWhile_eq_nil_iff.mpr (by simpa [List.all_eq_true] using hws)
    rw [h1]
    rfl
  constructor
  · simp [load_from_storage, loadAttempt, hstrip]
    rfl
  · simp [load_from_storage, loadAttempt, hstrip]
    rfl

/-- Witness for C10: a whitespace-only stored `system_prompt` loads as
`None`, the same as an absent file. -/
theorem whitespace_only_value_absent_witness :
    load_from_storage
        ⟨fun n => if n = "system_prompt" then FileState.stored " \n\t "
            else FileState.absent, false, false, false⟩
        "system_prompt"
      = .ok none ∧
    load_from_storage
        ⟨fun n => if n = "system_prompt" then FileState.stored " \n\t "
            else FileState.absent, false, false, false⟩
        "system_prompt"
      = load_from_storage
          ⟨fun n => if n = "system_prompt" then FileState.absent
              else FileState.absent, false, false, false⟩
          "system_prompt" :=
  whitespace_only_value_absent (fun _ => FileState.absent) false false false
    "system_prompt" " \n\t " (by decide)
